import Mathlib

/-!
Shallow embedding of the beat-police backend (src/backend/server.py).

The persistence layer (MongoDB via motor) is modelled as in-memory lists in
insertion order: find_one is List.find?, find().to_list(cap) is filter + take,
insert_one appends, update_one rewrites the first matching document, and
delete_one removes the first matching document.  Password hashing (passlib
bcrypt) is opaque one-way hashing; it is modelled by an injective tagging
function.  JWT signing is opaque; a token is modelled by its subject claim.
Timestamps and generated uuids are opaque strings supplied as parameters.
-/

namespace BeatPolice

/-- Mirrors the User pydantic model (server.py lines 41-49). -/
structure User where
  id : String
  username : String
  password_hash : String
  full_name : String
  role : String
  badge_number : Option String
  created_at : String
deriving DecidableEq, Repr

/-- Request body for register (UserCreate, lines 51-56). -/
structure UserCreate where
  username : String
  password : String
  full_name : String
  role : String
  badge_number : Option String
deriving DecidableEq, Repr

/-- Request body for login (UserLogin, lines 58-60). -/
structure UserLogin where
  username : String
  password : String
deriving DecidableEq, Repr

/-- Public user view (UserResponse, lines 62-67). -/
structure UserResponse where
  id : String
  username : String
  full_name : String
  role : String
  badge_number : Option String
deriving DecidableEq, Repr

/-- TokenResponse (lines 69-72); the signed JWT is modelled by its
subject claim, which create_access_token sets to the user id. -/
structure TokenResponse where
  access_token : String
  token_type : String
  user : UserResponse
deriving DecidableEq, Repr

/-- PatrolPoint (lines 74-82).  The float coordinates are opaque payload:
no handler computes with them, so they are carried as integers. -/
structure PatrolPoint where
  id : String
  name : String
  description : String
  address : String
  latitude : Option Int
  longitude : Option Int
  created_at : String
deriving DecidableEq, Repr

/-- Route (lines 91-97): patrol_point_ids is the ordered checkpoint list. -/
structure Route where
  id : String
  name : String
  description : String
  patrol_point_ids : List String
  created_at : String
deriving DecidableEq, Repr

/-- RouteAssignment (lines 104-111). -/
structure RouteAssignment where
  id : String
  officer_id : String
  route_id : String
  date : String
  status : String
  created_at : String
deriving DecidableEq, Repr

/-- Attendance (lines 118-125). -/
structure Attendance where
  id : String
  officer_id : String
  route_assignment_id : String
  patrol_point_id : String
  check_in_time : String
  notes : Option String
deriving DecidableEq, Repr

/-- Request body for mark_attendance (AttendanceCreate, lines 127-130). -/
structure AttendanceCreate where
  route_assignment_id : String
  patrol_point_id : String
  notes : Option String
deriving DecidableEq, Repr

/-- FastAPI HTTPException: status code plus detail message. -/
structure HTTPException where
  status_code : Nat
  detail : String
deriving DecidableEq, Repr

/-- The five MongoDB collections used by the handlers, each a list of
documents in insertion order. -/
structure DB where
  users : List User
  patrol_points : List PatrolPoint
  routes : List Route
  route_assignments : List RouteAssignment
  attendance : List Attendance
deriving DecidableEq, Repr

/-- Mongo update_one: rewrite the first document matching the filter. -/
def updateOne (p : α → Bool) (f : α → α) : List α → List α
  | [] => []
  | x :: xs => if p x then f x :: xs else x :: updateOne p f xs

/-- Mongo delete_one: remove the first document matching the filter,
returning the deleted_count and the remaining collection. -/
def deleteOne (p : α → Bool) : List α → Nat × List α
  | [] => (0, [])
  | x :: xs =>
    if p x then (1, xs)
    else
      let r := deleteOne p xs
      (r.1, x :: r.2)

/-- Models passlib bcrypt pwd_context.hash: an opaque one-way hash,
represented injectively (lines 137-138). -/
def get_password_hash (password : String) : String :=
  "bcrypt$" ++ password

/-- Models pwd_context.verify (lines 134-135). -/
def verify_password (plain_password hashed_password : String) : Bool :=
  get_password_hash plain_password == hashed_password

/-- register handler (lines 166-193).  newId and now stand for the
generated uuid and the creation timestamp. -/
def register (user_data : UserCreate) (newId now : String) (db : DB) :
    Except HTTPException UserResponse × DB :=
  match db.users.find? (fun u => u.username == user_data.username) with
  | some _ => (.error ⟨400, "Username already exists"⟩, db)
  | none =>
    let user : User :=
      { id := newId
        username := user_data.username
        password_hash := get_password_hash user_data.password
        full_name := user_data.full_name
        role := user_data.role
        badge_number := user_data.badge_number
        created_at := now }
    (.ok { id := user.id, username := user.username, full_name := user.full_name,
           role := user.role, badge_number := user.badge_number },
     { db with users := db.users ++ [user] })

/-- login handler (lines 195-213).  The access_token is the modelled JWT:
its subject claim, i.e. the user id. -/
def login (login_data : UserLogin) (db : DB) : Except HTTPException TokenResponse :=
  match db.users.find? (fun u => u.username == login_data.username) with
  | none => .error ⟨401, "Invalid username or password"⟩
  | some user =>
    if verify_password login_data.password user.password_hash then
      .ok { access_token := user.id
            token_type := "bearer"
            user := { id := user.id, username := user.username,
                      full_name := user.full_name, role := user.role,
                      badge_number := user.badge_number } }
    else
      .error ⟨401, "Invalid username or password"⟩

/-- delete_patrol_point handler (lines 246-254). -/
def delete_patrol_point (point_id : String) (current_user : User) (db : DB) :
    Except HTTPException String × DB :=
  if current_user.role ≠ "admin" then
    (.error ⟨403, "Only admins can delete patrol points"⟩, db)
  else
    let r := deleteOne (fun p => p.id == point_id) db.patrol_points
    if r.1 == 0 then (.error ⟨404, "Patrol point not found"⟩, db)
    else (.ok "Patrol point deleted successfully", { db with patrol_points := r.2 })

/-- get_routes handler (lines 269-275): all routes, capped at 1000. -/
def get_routes (_current_user : User) (db : DB) : List Route :=
  db.routes.take 1000

/-- get_route_assignments handler (lines 300-310): officers are filtered
to their own assignments, every other role gets the empty query. -/
def get_route_assignments (current_user : User) (db : DB) : List RouteAssignment :=
  let query := fun (a : RouteAssignment) =>
    if current_user.role == "officer" then a.officer_id == current_user.id else true
  (db.route_assignments.filter query).take 1000

/-- A patrol point annotated with its completed flag, as returned by the
today view (lines 345-351). -/
structure AnnotatedPoint where
  point : PatrolPoint
  completed : Bool
deriving DecidableEq, Repr

/-- Result of get_today_assignment: either the no-assignment sentinel
message or the composite assignment view. -/
inductive TodayResult where
  | noRoute : TodayResult
  | found : RouteAssignment → Route → List AnnotatedPoint → TodayResult
deriving DecidableEq, Repr

/-- get_today_assignment handler (lines 312-357).  today is the server
clock date string. -/
def get_today_assignment (current_user : User) (today : String) (db : DB) :
    Except HTTPException TodayResult :=
  if current_user.role ≠ "officer" then
    .error ⟨403, "Only officers can access this endpoint"⟩
  else
    match db.route_assignments.find?
        (fun a => a.officer_id == current_user.id && a.date == today) with
    | none => .ok .noRoute
    | some assignment =>
      match db.routes.find? (fun r => r.id == assignment.route_id) with
      | none => .error ⟨404, "Route not found"⟩
      | some route =>
        let patrol_points :=
          (db.patrol_points.filter
            (fun p => route.patrol_point_ids.contains p.id)).take 1000
        let attendance_records :=
          (db.attendance.filter
            (fun a => a.route_assignment_id == assignment.id)).take 1000
        let completed_point_ids := attendance_records.map (fun a => a.patrol_point_id)
        let ordered_points := route.patrol_point_ids.filterMap (fun point_id =>
          match patrol_points.find? (fun p => p.id == point_id) with
          | none => none
          | some point => some ⟨point, completed_point_ids.contains point_id⟩)
        .ok (.found assignment route ordered_points)

/-- mark_attendance handler (lines 361-411).  newId and now stand for the
generated uuid and the check-in timestamp. -/
def mark_attendance (attendance_data : AttendanceCreate) (current_user : User)
    (newId now : String) (db : DB) : Except HTTPException Attendance × DB :=
  if current_user.role ≠ "officer" then
    (.error ⟨403, "Only officers can mark attendance"⟩, db)
  else
    match db.route_assignments.find?
        (fun a => a.id == attendance_data.route_assignment_id) with
    | none => (.error ⟨404, "Route assignment not found"⟩, db)
    | some assignment =>
      match db.attendance.find? (fun a =>
          a.route_assignment_id == attendance_data.route_assignment_id &&
          a.patrol_point_id == attendance_data.patrol_point_id) with
      | some _ => (.error ⟨400, "Attendance already marked for this point"⟩, db)
      | none =>
        let attendance : Attendance :=
          { id := newId
            officer_id := current_user.id
            route_assignment_id := attendance_data.route_assignment_id
            patrol_point_id := attendance_data.patrol_point_id
            check_in_time := now
            notes := attendance_data.notes }
        let db1 := { db with attendance := db.attendance ++ [attendance] }
        match db.routes.find? (fun r => r.id == assignment.route_id) with
        | none => (.ok attendance, db1)
        | some route =>
          let attendance_count := (db1.attendance.filter
            (fun a => a.route_assignment_id == attendance_data.route_assignment_id)).length
          let set_status := fun (s : String) =>
            updateOne (fun a => a.id == attendance_data.route_assignment_id)
              (fun a => { a with status := s }) db1.route_assignments
          if attendance_count ≥ route.patrol_point_ids.length then
            (.ok attendance, { db1 with route_assignments := set_status "completed" })
          else if attendance_count > 0 then
            (.ok attendance, { db1 with route_assignments := set_status "in_progress" })
          else (.ok attendance, db1)

/-! ### Concrete fixtures used by the witness theorems -/

/-- Officer fixture. -/
def alice : User :=
  ⟨"u-alice", "alice", get_password_hash "alicepw", "Alice A", "officer", none,
   "2026-01-01T00:00:00"⟩

/-- Second officer fixture, used for cross-ownership checks. -/
def carol : User :=
  ⟨"u-carol", "carol", get_password_hash "carolpw", "Carol C", "officer", some "B7",
   "2026-01-01T00:00:00"⟩

/-- Admin fixture. -/
def bob : User :=
  ⟨"u-bob", "bob", get_password_hash "bobpw", "Bob B", "admin", none,
   "2026-01-01T00:00:00"⟩

/-- Patrol point fixture A. -/
def pA : PatrolPoint :=
  ⟨"pA", "Gate A", "north gate", "1 Main St", none, none, "2026-01-01T00:00:00"⟩

/-- Patrol point fixture B. -/
def pB : PatrolPoint :=
  ⟨"pB", "Gate B", "south gate", "2 Main St", some 10, some 20, "2026-01-01T00:00:00"⟩

/-- Route fixture over checkpoints pA then pB. -/
def routeR : Route :=
  ⟨"r1", "Night Round", "both gates", ["pA", "pB"], "2026-01-01T00:00:00"⟩

/-- An assignment of alice to routeR. -/
def asgA : RouteAssignment :=
  ⟨"as1", "u-alice", "r1", "2026-10-12", "assigned", "2026-01-01T00:00:00"⟩

/-- An assignment of alice whose route_id dangles (no such route). -/
def asgD : RouteAssignment :=
  ⟨"as2", "u-alice", "r-missing", "2026-10-13", "assigned", "2026-01-01T00:00:00"⟩

/-- Base database fixture. -/
def db0 : DB := ⟨[alice, carol, bob], [pA, pB], [routeR], [asgA, asgD], []⟩

/-- An attendance row for (as1, pA) by alice. -/
def attA : Attendance := ⟨"att1", "u-alice", "as1", "pA", "2026-10-12T08:00:00", none⟩

/-- Database fixture in which (as1, pA) already has attendance. -/
def dbA : DB := { db0 with attendance := [attA] }

/-! ### Helper lemmas about the document-store primitives -/

/-- updateOne commutes with find? when the update preserves the filter. -/
theorem updateOne_find? (p : α → Bool) (f : α → α) (hpf : ∀ a, p (f a) = p a) :
    ∀ l : List α, (updateOne p f l).find? p = (l.find? p).map f := by
  intro l
  induction l with
  | nil => rfl
  | cons x xs ih =>
    by_cases hx : p x = true
    · rw [updateOne, if_pos hx, List.find?_cons_of_pos _ ((hpf x).trans hx),
        List.find?_cons_of_pos _ hx]
      rfl
    · rw [updateOne, if_neg hx, List.find?_cons_of_neg _ hx,
        List.find?_cons_of_neg _ hx, ih]

/-- Filtering by a weaker predicate does not change the first hit of a
stronger one. -/
theorem find?_filter_superset (l : List α) (p q : α → Bool)
    (h : ∀ x, p x = true → q x = true) :
    (l.filter q).find? p = l.find? p := by
  induction l with
  | nil => rfl
  | cons x xs ih =>
    by_cases hq : q x = true
    · by_cases hp : p x = true
      · rw [List.filter_cons_of_pos hq, List.find?_cons_of_pos _ hp,
          List.find?_cons_of_pos _ hp]
      · rw [List.filter_cons_of_pos hq, List.find?_cons_of_neg _ hp,
          List.find?_cons_of_neg _ hp, ih]
    · have hp : ¬ p x = true := fun hp => hq (h x hp)
      rw [List.filter_cons_of_neg hq, List.find?_cons_of_neg _ hp, ih]

/-- The first patrol point found by id indeed carries that id. -/
theorem find?_point_id {l : List PatrolPoint} {pid : String} {pt : PatrolPoint}
    (h : l.find? (fun x => x.id == pid) = some pt) : pt.id = pid := by
  have := List.find?_some h
  exact eq_of_beq this

/-- C1: after a successful mark-attendance call on an assignment whose route
resolves to a stored Route with k checkpoints, the status of the assignment
equals "completed" when the attendance count n for the assignment satisfies
n >= k, and "in_progress" when 0 < n < k; only the count matters, so the
order in which checkpoints were visited is irrelevant. -/
theorem C1_mark_attendance_status_rule
    (d : AttendanceCreate) (u : User) (newId now : String) (db : DB)
    (hrole : u.role = "officer")
    (asg : RouteAssignment)
    (hasg : db.route_assignments.find? (fun a => a.id == d.route_assignment_id) = some asg)
    (route : Route)
    (hroute : db.routes.find? (fun r => r.id == asg.route_id) = some route)
    (att : Attendance)
    (hok : (mark_attendance d u newId now db).1 = .ok att) :
    ∃ asg₂,
      (mark_attendance d u newId now db).2.route_assignments.find?
          (fun a => a.id == d.route_assignment_id) = some asg₂ ∧
      asg₂.status =
        (if route.patrol_point_ids.length ≤
            ((mark_attendance d u newId now db).2.attendance.filter
              (fun a => a.route_assignment_id == d.route_assignment_id)).length
         then "completed" else "in_progress") := by
  have hpair : db.attendance.find? (fun a =>
      a.route_assignment_id == d.route_assignment_id &&
      a.patrol_point_id == d.patrol_point_id) = none := by
    cases hfp : db.attendance.find? (fun a =>
        a.route_assignment_id == d.route_assignment_id &&
        a.patrol_point_id == d.patrol_point_id) with
    | none => rfl
    | some e =>
      exfalso
      simp only [mark_attendance, hrole, hasg, hfp, ne_eq] at hok
      exact Except.noConfusion hok
  simp only [mark_attendance, hrole, hasg, hpair, hroute, ne_eq, ge_iff_le,
    not_true, if_false]
  set newAtt : Attendance :=
    ⟨newId, u.id, d.route_assignment_id, d.patrol_point_id, now, d.notes⟩ with hnew
  have hupd : ∀ s : String,
      (updateOne (fun a => a.id == d.route_assignment_id)
          (fun (a : RouteAssignment) => { a with status := s })
          db.route_assignments).find?
        (fun a => a.id == d.route_assignment_id) =
      some { asg with status := s } := by
    intro s
    rw [updateOne_find? (fun a => a.id == d.route_assignment_id)
      (fun (a : RouteAssignment) => { a with status := s }) (fun a => rfl), hasg]
    rfl
  by_cases hk : route.patrol_point_ids.length ≤
      ((db.attendance ++ [newAtt]).filter
        (fun a => a.route_assignment_id == d.route_assignment_id)).length
  · rw [if_pos hk]
    refine ⟨{ asg with status := "completed" }, hupd "completed", ?_⟩
    rw [if_pos hk]
  · have hn : 0 < ((db.attendance ++ [newAtt]).filter
        (fun a => a.route_assignment_id == d.route_assignment_id)).length := by
      rw [List.filter_append]
      simp [hnew]
    rw [if_neg hk, if_pos hn]
    refine ⟨{ asg with status := "in_progress" }, hupd "in_progress", ?_⟩
    rw [if_neg hk]

/-- C1 witness: alice marks pA on assignment as1 over the two-point routeR;
the hypotheses hold at this concrete input and the status rule applies. -/
theorem C1_mark_attendance_status_rule_witness :
    ∃ asg₂,
      (mark_attendance ⟨"as1", "pA", none⟩ alice "att1" "t1" db0).2.route_assignments.find?
          (fun a => a.id == "as1") = some asg₂ ∧
      asg₂.status =
        (if routeR.patrol_point_ids.length ≤
            ((mark_attendance ⟨"as1", "pA", none⟩ alice "att1" "t1" db0).2.attendance.filter
              (fun a => a.route_assignment_id == "as1")).length
         then "completed" else "in_progress") :=
  C1_mark_attendance_status_rule ⟨"as1", "pA", none⟩ alice "att1" "t1" db0 rfl asgA rfl
    routeR rfl ⟨"att1", "u-alice", "as1", "pA", "t1", none⟩ rfl

/-- Unfolding lemma: an unknown assignment id makes mark_attendance fail
with 404 and leave the database untouched. -/
theorem mark_attendance_no_assignment
    (d : AttendanceCreate) (u : User) (newId now : String) (db : DB)
    (hrole : u.role = "officer")
    (hfa : db.route_assignments.find? (fun a => a.id == d.route_assignment_id) = none) :
    mark_attendance d u newId now db =
      (.error ⟨404, "Route assignment not found"⟩, db) := by
  simp only [mark_attendance, hrole, hfa, ne_eq, not_true, if_false]

/-- Unfolding lemma: an existing (assignment, point) attendance row makes
mark_attendance fail with 400 and leave the database untouched. -/
theorem mark_attendance_duplicate
    (d : AttendanceCreate) (u : User) (newId now : String) (db : DB)
    (hrole : u.role = "officer")
    (asg : RouteAssignment)
    (hasg : db.route_assignments.find? (fun a => a.id == d.route_assignment_id) = some asg)
    (ex : Attendance)
    (hfp : db.attendance.find? (fun a =>
        a.route_assignment_id == d.route_assignment_id &&
        a.patrol_point_id == d.patrol_point_id) = some ex) :
    mark_attendance d u newId now db =
      (.error ⟨400, "Attendance already marked for this point"⟩, db) := by
  simp only [mark_attendance, hrole, hasg, hfp, ne_eq, not_true, if_false]

/-- Unfolding lemma: when the assignment resolves and the pair is fresh,
mark_attendance returns the freshly built Attendance row whatever the route
lookup and the status recomputation do. -/
theorem mark_attendance_fst_ok
    (d : AttendanceCreate) (u : User) (newId now : String) (db : DB)
    (hrole : u.role = "officer")
    (asg : RouteAssignment)
    (hasg : db.route_assignments.find? (fun a => a.id == d.route_assignment_id) = some asg)
    (hpair : db.attendance.find? (fun a =>
        a.route_assignment_id == d.route_assignment_id &&
        a.patrol_point_id == d.patrol_point_id) = none) :
    (mark_attendance d u newId now db).1 =
      .ok ⟨newId, u.id, d.route_assignment_id, d.patrol_point_id, now, d.notes⟩ := by
  simp only [mark_attendance, hrole, hasg, hpair, ne_eq, not_true, if_false]
  cases hr : db.routes.find? (fun r => r.id == asg.route_id) with
  | none => rfl
  | some route =>
    simp only
    split
    · rfl
    · split
      · rfl
      · rfl

/-- C2: marking attendance a second time for the same (assignment,
checkpoint) pair fails with Conflict 400, the database is unchanged, and
exactly one Attendance row for the pair remains afterward. -/
theorem C2_duplicate_attendance_conflict
    (d : AttendanceCreate) (u : User) (newId now : String) (db : DB)
    (hrole : u.role = "officer")
    (asg : RouteAssignment)
    (hasg : db.route_assignments.find? (fun a => a.id == d.route_assignment_id) = some asg)
    (hcount : (db.attendance.filter (fun a =>
        a.route_assignment_id == d.route_assignment_id &&
        a.patrol_point_id == d.patrol_point_id)).length = 1) :
    mark_attendance d u newId now db =
      (.error ⟨400, "Attendance already marked for this point"⟩, db) ∧
    ((mark_attendance d u newId now db).2.attendance.filter (fun a =>
        a.route_assignment_id == d.route_assignment_id &&
        a.patrol_point_id == d.patrol_point_id)).length = 1 := by
  have hne : db.attendance.filter (fun a =>
      a.route_assignment_id == d.route_assignment_id &&
      a.patrol_point_id == d.patrol_point_id) ≠ [] := by
    intro h
    rw [h] at hcount
    exact absurd hcount (by decide)
  obtain ⟨x, hx⟩ := List.exists_mem_of_ne_nil _ hne
  obtain ⟨hxm, hxp⟩ := List.mem_filter.mp hx
  have hsome : (db.attendance.find? (fun a =>
      a.route_assignment_id == d.route_assignment_id &&
      a.patrol_point_id == d.patrol_point_id)).isSome :=
    List.find?_isSome.mpr ⟨x, hxm, hxp⟩
  obtain ⟨ex, hfp⟩ := Option.isSome_iff_exists.mp hsome
  have hmain := mark_attendance_duplicate d u newId now db hrole asg hasg ex hfp
  refine ⟨hmain, ?_⟩
  rw [hmain]
  exact hcount

/-- C2 witness: with one attendance row for (as1, pA) already stored,
a second marking by alice fails with 400 and leaves exactly that row. -/
theorem C2_duplicate_attendance_conflict_witness :
    mark_attendance ⟨"as1", "pA", none⟩ alice "att2" "t2" dbA =
      (.error ⟨400, "Attendance already marked for this point"⟩, dbA) ∧
    ((mark_attendance ⟨"as1", "pA", none⟩ alice "att2" "t2" dbA).2.attendance.filter (fun a =>
        a.route_assignment_id == "as1" &&
        a.patrol_point_id == "pA")).length = 1 :=
  C2_duplicate_attendance_conflict ⟨"as1", "pA", none⟩ alice "att2" "t2" dbA rfl asgA rfl rfl

/-- C5: mark-attendance verifies no ownership: with an officer caller, a
404 happens exactly when the assignment id does not resolve, any successful
call stamps the caller id (not the assignment owner) as officer_id, and the
call succeeds for any resolving assignment with a fresh pair, whoever the
assignment belongs to. -/
theorem C5_no_ownership_check
    (d : AttendanceCreate) (u : User) (newId now : String) (db : DB)
    (hrole : u.role = "officer") :
    ((∃ e, (mark_attendance d u newId now db).1 = .error e ∧ e.status_code = 404) ↔
      db.route_assignments.find? (fun a => a.id == d.route_assignment_id) = none) ∧
    (∀ att, (mark_attendance d u newId now db).1 = .ok att → att.officer_id = u.id) ∧
    (∀ asg, db.route_assignments.find? (fun a => a.id == d.route_assignment_id) = some asg →
      db.attendance.find? (fun a =>
        a.route_assignment_id == d.route_assignment_id &&
        a.patrol_point_id == d.patrol_point_id) = none →
      ∃ att, (mark_attendance d u newId now db).1 = .ok att) := by
  refine ⟨⟨?_, ?_⟩, ?_, ?_⟩
  · rintro ⟨e, he, h404⟩
    cases hfa : db.route_assignments.find? (fun a => a.id == d.route_assignment_id) with
    | none => rfl
    | some asg =>
      exfalso
      cases hfp : db.attendance.find? (fun a =>
          a.route_assignment_id == d.route_assignment_id &&
          a.patrol_point_id == d.patrol_point_id) with
      | some ex =>
        rw [mark_attendance_duplicate d u newId now db hrole asg hfa ex hfp] at he
        injection he with he
        rw [← he] at h404
        exact absurd h404 (by decide)
      | none =>
        rw [mark_attendance_fst_ok d u newId now db hrole asg hfa hfp] at he
        exact Except.noConfusion he
  · intro hfa
    exact ⟨⟨404, "Route assignment not found"⟩,
      by rw [mark_attendance_no_assignment d u newId now db hrole hfa], rfl⟩
  · intro att hatt
    cases hfa : db.route_assignments.find? (fun a => a.id == d.route_assignment_id) with
    | none =>
      rw [mark_attendance_no_assignment d u newId now db hrole hfa] at hatt
      exact Except.noConfusion hatt
    | some asg =>
      cases hfp : db.attendance.find? (fun a =>
          a.route_assignment_id == d.route_assignment_id &&
          a.patrol_point_id == d.patrol_point_id) with
      | some ex =>
        rw [mark_attendance_duplicate d u newId now db hrole asg hfa ex hfp] at hatt
        exact Except.noConfusion hatt
      | none =>
        rw [mark_attendance_fst_ok d u newId now db hrole asg hfa hfp] at hatt
        injection hatt with hatt
        rw [← hatt]
  · intro asg hasg hpair
    exact ⟨_, mark_attendance_fst_ok d u newId now db hrole asg hasg hpair⟩

/-- C5 witness: carol successfully marks attendance on assignment as1,
which belongs to alice, and the created row carries carol as officer. -/
theorem C5_no_ownership_check_witness :
    asgA.officer_id ≠ carol.id ∧
    (∃ att, (mark_attendance ⟨"as1", "pB", none⟩ carol "att3" "t3" db0).1 = .ok att) ∧
    (∀ att, (mark_attendance ⟨"as1", "pB", none⟩ carol "att3" "t3" db0).1 = .ok att →
      att.officer_id = carol.id) :=
  ⟨by decide,
   (C5_no_ownership_check ⟨"as1", "pB", none⟩ carol "att3" "t3" db0 rfl).2.2 asgA rfl rfl,
   (C5_no_ownership_check ⟨"as1", "pB", none⟩ carol "att3" "t3" db0 rfl).2.1⟩

/-- C10: when the stored assignment references a route id that does not
resolve, mark_attendance still succeeds: the Attendance row is inserted and
returned, and the assignments collection, status included, is untouched. -/
theorem C10_dangling_route_skips_status
    (d : AttendanceCreate) (u : User) (newId now : String) (db : DB)
    (hrole : u.role = "officer")
    (asg : RouteAssignment)
    (hasg : db.route_assignments.find? (fun a => a.id == d.route_assignment_id) = some asg)
    (hpair : db.attendance.find? (fun a =>
        a.route_assignment_id == d.route_assignment_id &&
        a.patrol_point_id == d.patrol_point_id) = none)
    (hroute : db.routes.find? (fun r => r.id == asg.route_id) = none) :
    mark_attendance d u newId now db =
      (.ok ⟨newId, u.id, d.route_assignment_id, d.patrol_point_id, now, d.notes⟩,
       { db with attendance :=
          db.attendance ++ [⟨newId, u.id, d.route_assignment_id, d.patrol_point_id, now, d.notes⟩] }) ∧
    (mark_attendance d u newId now db).2.route_assignments = db.route_assignments := by
  have hmain : mark_attendance d u newId now db =
      (.ok ⟨newId, u.id, d.route_assignment_id, d.patrol_point_id, now, d.notes⟩,
       { db with attendance :=
          db.attendance ++ [⟨newId, u.id, d.route_assignment_id, d.patrol_point_id, now, d.notes⟩] }) := by
    simp only [mark_attendance, hrole, hasg, hpair, hroute, ne_eq, not_true, if_false]
  exact ⟨hmain, by rw [hmain]⟩

/-- C10 witness: assignment as2 references the missing route r-missing;
alice marking pA on it succeeds and no status recomputation happens. -/
theorem C10_dangling_route_skips_status_witness :
    mark_attendance ⟨"as2", "pA", none⟩ alice "att4" "t4" db0 =
      (.ok ⟨"att4", "u-alice", "as2", "pA", "t4", none⟩,
       { db0 with attendance :=
          db0.attendance ++ [⟨"att4", "u-alice", "as2", "pA", "t4", none⟩] }) ∧
    (mark_attendance ⟨"as2", "pA", none⟩ alice "att4" "t4" db0).2.route_assignments =
      db0.route_assignments :=
  C10_dangling_route_skips_status ⟨"as2", "pA", none⟩ alice "att4" "t4" db0 rfl asgD rfl rfl rfl

/-- Mongo contains is list membership for strings. -/
theorem contains_iff_mem_str {l : List String} {s : String} :
    l.contains s = true ↔ s ∈ l :=
  List.elem_iff

/-- C4: listing route assignments is role-filtered: an officer caller only
ever receives assignments whose officer_id is their own id, and an admin
caller receives all stored assignments up to the 1000-result cap. -/
theorem C4_list_assignments_role_filter (u : User) (db : DB) :
    (u.role = "officer" → ∀ a ∈ get_route_assignments u db, a.officer_id = u.id) ∧
    (u.role = "admin" → get_route_assignments u db = db.route_assignments.take 1000) := by
  constructor
  · intro hrole a ha
    simp only [get_route_assignments, hrole] at ha
    have ha' := List.mem_of_mem_take ha
    have hb := (List.mem_filter.mp ha').2
    have hb' : (a.officer_id == u.id) = true := by simpa using hb
    exact eq_of_beq hb'
  · intro hrole
    simp only [get_route_assignments, hrole]
    have : (fun (a : RouteAssignment) =>
        if ("admin" == "officer") = true then a.officer_id == u.id else true) =
        fun _ => true := by
      funext a
      rfl
    rw [this, List.filter_true]

/-- C4 witness: officer alice only sees her own assignments in db0, while
admin bob sees the whole collection. -/
theorem C4_list_assignments_role_filter_witness :
    (∀ a ∈ get_route_assignments alice db0, a.officer_id = alice.id) ∧
    get_route_assignments bob db0 = db0.route_assignments.take 1000 :=
  ⟨(C4_list_assignments_role_filter alice db0).1 rfl,
   (C4_list_assignments_role_filter bob db0).2 rfl⟩

/-- C6 counterexample: db0 satisfies the role invariant, yet registering a
user with role supervisor succeeds and stores a record whose role is
neither admin nor officer, so registration does not preserve the invariant
for arbitrary request input. -/
theorem C6_counterexample :
    (∀ u ∈ db0.users, u.role = "admin" ∨ u.role = "officer") ∧
    ∃ u ∈ (register ⟨"mallory", "pw", "Mallory M", "supervisor", none⟩
        "u-m" "t" db0).2.users,
      ¬(u.role = "admin" ∨ u.role = "officer") := by
  decide

/-- C6 amended: register stores the request role verbatim without any
validation; the invariant that every stored role is admin or officer is
preserved exactly when it held before and the request role is itself
admin or officer. -/
theorem C6_role_invariant_conditional
    (d : UserCreate) (newId now : String) (db : DB)
    (hinv : ∀ u ∈ db.users, u.role = "admin" ∨ u.role = "officer")
    (hrole : d.role = "admin" ∨ d.role = "officer") :
    ∀ u ∈ (register d newId now db).2.users, u.role = "admin" ∨ u.role = "officer" := by
  intro u hu
  cases hf : db.users.find? (fun x => x.username == d.username) with
  | some ex =>
    simp only [register, hf] at hu
    exact hinv u hu
  | none =>
    simp only [register, hf] at hu
    rcases List.mem_append.mp hu with h | h
    · exact hinv u h
    · rw [List.mem_singleton.mp h]
      exact hrole

/-- C6 amended witness: registering dave with role officer on db0 keeps
the stored roles inside the admin-or-officer set, instantiated at the
freshly inserted record. -/
theorem C6_role_invariant_conditional_witness :
    (⟨"u-dave", "dave", get_password_hash "pw", "Dave D", "officer", none, "t"⟩ : User).role
        = "admin" ∨
    (⟨"u-dave", "dave", get_password_hash "pw", "Dave D", "officer", none, "t"⟩ : User).role
        = "officer" :=
  C6_role_invariant_conditional ⟨"dave", "pw", "Dave D", "officer", none⟩
    "u-dave" "t" db0 (by decide) (Or.inr rfl)
    ⟨"u-dave", "dave", get_password_hash "pw", "Dave D", "officer", none, "t"⟩ (by decide)

/-- C7: registering a username that already exists fails with Conflict 400
and leaves the database, in particular the first user record, unchanged. -/
theorem C7_duplicate_username_conflict
    (d : UserCreate) (newId now : String) (db : DB)
    (u : User)
    (hu : db.users.find? (fun x => x.username == d.username) = some u) :
    register d newId now db = (.error ⟨400, "Username already exists"⟩, db) := by
  simp only [register, hu]

/-- C7 witness: a second registration of the username alice on db0 fails
with 400 and db0 is untouched. -/
theorem C7_duplicate_username_conflict_witness :
    register ⟨"alice", "pw2", "Alice Again", "officer", none⟩ "u-x" "t" db0 =
      (.error ⟨400, "Username already exists"⟩, db0) :=
  C7_duplicate_username_conflict ⟨"alice", "pw2", "Alice Again", "officer", none⟩
    "u-x" "t" db0 alice rfl

/-- C8: a login that fails because the username is unknown and a login that
fails because the password mismatches produce the identical error value:
status 401 with the same message, leaving no distinguishing signal. -/
theorem C8_login_failure_indistinguishable (d : UserLogin) (db : DB)
    (hfail : db.users.find? (fun x => x.username == d.username) = none ∨
      ∃ u, db.users.find? (fun x => x.username == d.username) = some u ∧
        verify_password d.password u.password_hash = false) :
    login d db = .error ⟨401, "Invalid username or password"⟩ := by
  rcases hfail with h | ⟨u, hu, hv⟩
  · simp only [login, h]
  · simp only [login, hu, hv, Bool.false_eq_true, if_false]

/-- C8 witness: on db0, an unknown username and a wrong password for the
existing user alice fail with the very same error. -/
theorem C8_login_failure_indistinguishable_witness :
    login ⟨"mallory", "whatever"⟩ db0 = .error ⟨401, "Invalid username or password"⟩ ∧
    login ⟨"alice", "wrongpw"⟩ db0 = .error ⟨401, "Invalid username or password"⟩ :=
  ⟨C8_login_failure_indistinguishable ⟨"mallory", "whatever"⟩ db0 (Or.inl rfl),
   C8_login_failure_indistinguishable ⟨"alice", "wrongpw"⟩ db0
     (Or.inr ⟨alice, rfl, rfl⟩)⟩

/-- C9: deleting a patrol point touches only the patrol_points collection:
routes, users, assignments and attendance are unchanged, and a route that
referenced the deleted point id still lists it on a subsequent read. -/
theorem C9_delete_point_preserves_routes
    (point_id : String) (u : User) (db : DB)
    (r : Route) (hr : r ∈ db.routes) (href : point_id ∈ r.patrol_point_ids)
    (hcap : db.routes.length ≤ 1000) :
    (delete_patrol_point point_id u db).2.routes = db.routes ∧
    (delete_patrol_point point_id u db).2.users = db.users ∧
    (delete_patrol_point point_id u db).2.route_assignments = db.route_assignments ∧
    (delete_patrol_point point_id u db).2.attendance = db.attendance ∧
    r ∈ get_routes u (delete_patrol_point point_id u db).2 ∧
    point_id ∈ r.patrol_point_ids := by
  have hframe : (delete_patrol_point point_id u db).2.routes = db.routes ∧
      (delete_patrol_point point_id u db).2.users = db.users ∧
      (delete_patrol_point point_id u db).2.route_assignments = db.route_assignments ∧
      (delete_patrol_point point_id u db).2.attendance = db.attendance := by
    unfold delete_patrol_point
    split
    · exact ⟨rfl, rfl, rfl, rfl⟩
    · simp only
      split
      · exact ⟨rfl, rfl, rfl, rfl⟩
      · exact ⟨rfl, rfl, rfl, rfl⟩
  refine ⟨hframe.1, hframe.2.1, hframe.2.2.1, hframe.2.2.2, ?_, href⟩
  show r ∈ (delete_patrol_point point_id u db).2.routes.take 1000
  rw [hframe.1, List.take_of_length_le hcap]
  exact hr

/-- C9 witness: admin bob deletes pA, which routeR references; routeR is
still stored afterward, still listing pA. -/
theorem C9_delete_point_preserves_routes_witness :
    (delete_patrol_point "pA" bob db0).2.routes = db0.routes ∧
    (delete_patrol_point "pA" bob db0).2.users = db0.users ∧
    (delete_patrol_point "pA" bob db0).2.route_assignments = db0.route_assignments ∧
    (delete_patrol_point "pA" bob db0).2.attendance = db0.attendance ∧
    routeR ∈ get_routes bob (delete_patrol_point "pA" bob db0).2 ∧
    "pA" ∈ routeR.patrol_point_ids :=
  C9_delete_point_preserves_routes "pA" bob db0 routeR (by decide) (by decide) (by decide)

/-- The lookup-and-annotate loop of the today view keeps exactly the
resolvable checkpoint ids, in sequence order. -/
theorem filterMap_annotate_map_id (ids : List String) (points : List PatrolPoint)
    (comp : String → Bool) :
    ((ids.filterMap (fun pid =>
        match points.find? (fun p => p.id == pid) with
        | none => none
        | some point => some (⟨point, comp pid⟩ : AnnotatedPoint))).map
      (fun ap => ap.point.id)) =
    ids.filter (fun pid => (points.find? (fun p => p.id == pid)).isSome) := by
  induction ids with
  | nil => rfl
  | cons x xs ih =>
    cases hf : points.find? (fun p => p.id == x) with
    | none =>
      rw [List.filterMap_cons_none (by rw [hf]),
        List.filter_cons_of_neg (by rw [hf]; simp)]
      exact ih
    | some p =>
      rw [List.filterMap_cons_some (by rw [hf]), List.map_cons, ih,
        List.filter_cons_of_pos (by rw [hf]; rfl)]
      show p.id :: _ = x :: _
      rw [find?_point_id hf]

/-- Every entry produced by the lookup-and-annotate loop comes from a
checkpoint id of the sequence; its point is the first stored point with
that id and its flag is the annotation of that id. -/
theorem mem_filterMap_annotate {ids : List String} {points : List PatrolPoint}
    {comp : String → Bool} {ap : AnnotatedPoint}
    (h : ap ∈ ids.filterMap (fun pid =>
        match points.find? (fun p => p.id == pid) with
        | none => none
        | some point => some (⟨point, comp pid⟩ : AnnotatedPoint))) :
    ap.point.id ∈ ids ∧ points.find? (fun p => p.id == ap.point.id) = some ap.point ∧
      ap.completed = comp ap.point.id := by
  obtain ⟨pid, hpid, hf⟩ := List.mem_filterMap.mp h
  cases hfp : points.find? (fun p => p.id == pid) with
  | none =>
    have hnone : (match points.find? (fun p => p.id == pid) with
        | none => none
        | some point => some (⟨point, comp pid⟩ : AnnotatedPoint)) = none := by
      rw [hfp]
    exact Option.noConfusion (hnone.symm.trans hf)
  | some p =>
    have hsome : (match points.find? (fun p => p.id == pid) with
        | none => none
        | some point => some (⟨point, comp pid⟩ : AnnotatedPoint)) =
        some ⟨p, comp pid⟩ := by
      rw [hfp]
    have h2 := hsome.symm.trans hf
    injection h2 with h2
    have hpi : p.id = pid := find?_point_id hfp
    subst h2
    refine ⟨?_, ?_, ?_⟩
    · show p.id ∈ ids
      rw [hpi]
      exact hpid
    · show points.find? (fun q => q.id == p.id) = some p
      rw [hpi]
      exact hfp
    · show comp pid = comp p.id
      rw [hpi]

/-- Membership in the completed-point-ids list is existence of a matching
attendance row. -/
theorem completed_ids_spec (att : List Attendance) (aid pid : String) :
    ((att.filter (fun a => a.route_assignment_id == aid)).map
        (fun a => a.patrol_point_id)).contains pid = true ↔
      ∃ a ∈ att, a.route_assignment_id = aid ∧ a.patrol_point_id = pid := by
  rw [contains_iff_mem_str]
  constructor
  · intro hm
    obtain ⟨a, ha, hpa⟩ := List.mem_map.mp hm
    obtain ⟨hal, hq⟩ := List.mem_filter.mp ha
    exact ⟨a, hal, eq_of_beq hq, hpa⟩
  · rintro ⟨a, ha, h1, h2⟩
    refine List.mem_map.mpr ⟨a, ?_, h2⟩
    exact List.mem_filter.mpr ⟨ha, by simp [h1]⟩

/-- C3: for an officer whose assignment for today exists and whose route
resolves, the today view returns the checkpoints ordered exactly as the
route id sequence with unresolvable ids silently dropped, each entry being
the stored point annotated completed = true iff an Attendance row for
(assignment, checkpoint) exists. -/
theorem C3_today_view
    (u : User) (today : String) (db : DB)
    (hrole : u.role = "officer")
    (asg : RouteAssignment)
    (hasg : db.route_assignments.find?
      (fun a => a.officer_id == u.id && a.date == today) = some asg)
    (route : Route)
    (hroute : db.routes.find? (fun r => r.id == asg.route_id) = some route)
    (hpcap : db.patrol_points.length ≤ 1000)
    (hacap : (db.attendance.filter
      (fun a => a.route_assignment_id == asg.id)).length ≤ 1000) :
    ∃ pts, get_today_assignment u today db = .ok (.found asg route pts) ∧
      pts.map (fun ap => ap.point.id) =
        route.patrol_point_ids.filter
          (fun pid => (db.patrol_points.find? (fun p => p.id == pid)).isSome) ∧
      (∀ ap ∈ pts, db.patrol_points.find? (fun p => p.id == ap.point.id) = some ap.point) ∧
      (∀ ap ∈ pts, (ap.completed = true ↔
        ∃ a ∈ db.attendance, a.route_assignment_id = asg.id ∧
          a.patrol_point_id = ap.point.id)) := by
  have htakeP : (db.patrol_points.filter
      (fun p => route.patrol_point_ids.contains p.id)).take 1000 =
      db.patrol_points.filter (fun p => route.patrol_point_ids.contains p.id) :=
    List.take_of_length_le (le_trans (List.length_filter_le _ _) hpcap)
  have htakeA : (db.attendance.filter
      (fun a => a.route_assignment_id == asg.id)).take 1000 =
      db.attendance.filter (fun a => a.route_assignment_id == asg.id) :=
    List.take_of_length_le hacap
  have hfind : ∀ pid ∈ route.patrol_point_ids,
      (db.patrol_points.filter
        (fun p => route.patrol_point_ids.contains p.id)).find?
          (fun p => p.id == pid) =
      db.patrol_points.find? (fun p => p.id == pid) := by
    intro pid hpid
    apply find?_filter_superset
    intro x hx
    have hxi : x.id = pid := eq_of_beq hx
    rw [hxi]
    exact contains_iff_mem_str.mpr hpid
  have hrun : get_today_assignment u today db = .ok (.found asg route
      (route.patrol_point_ids.filterMap (fun point_id =>
        match (db.patrol_points.filter
            (fun p => route.patrol_point_ids.contains p.id)).find?
              (fun p => p.id == point_id) with
        | none => none
        | some point => some ⟨point, ((db.attendance.filter
            (fun a => a.route_assignment_id == asg.id)).map
              (fun a => a.patrol_point_id)).contains point_id⟩))) := by
    simp only [get_today_assignment, hrole, hasg, hroute, ne_eq, not_true, if_false]
    rw [htakeP, htakeA]
  refine ⟨_, hrun, ?_, ?_, ?_⟩
  · rw [filterMap_annotate_map_id]
    apply List.filter_congr
    intro pid hpid
    rw [hfind pid hpid]
  · intro ap hap
    obtain ⟨hmem, hfp, _⟩ := mem_filterMap_annotate hap
    rw [← hfind ap.point.id hmem]
    exact hfp
  · intro ap hap
    obtain ⟨hmem, hfp, hcomp⟩ := mem_filterMap_annotate hap
    rw [hcomp]
    exact completed_ids_spec db.attendance asg.id ap.point.id

/-- C3 witness: alice fetches today on dbA, where pA has been attended;
the view lists pA then pB as in the route sequence, with the completion
flags determined by the stored attendance. -/
theorem C3_today_view_witness :
    ∃ pts, get_today_assignment alice "2026-10-12" dbA = .ok (.found asgA routeR pts) ∧
      pts.map (fun ap => ap.point.id) =
        routeR.patrol_point_ids.filter
          (fun pid => (dbA.patrol_points.find? (fun p => p.id == pid)).isSome) ∧
      (∀ ap ∈ pts, dbA.patrol_points.find? (fun p => p.id == ap.point.id) = some ap.point) ∧
      (∀ ap ∈ pts, (ap.completed = true ↔
        ∃ a ∈ dbA.attendance, a.route_assignment_id = asgA.id ∧
          a.patrol_point_id = ap.point.id)) :=
  C3_today_view alice "2026-10-12" dbA rfl asgA rfl routeR rfl (by decide) (by decide)

end BeatPolice
